import Mathlib

/-!
Shallow embedding of the request/response core of go-reddit (reddit/reddit.go,
reddit/reddit-errors.go, reddit/json.go).  Times are integers counting
nanoseconds since Go's zero time instant, so `time.Time.IsZero` is `= 0`,
`time.Time.Before` is `<`, and `Truncate(time.Second)` rounds down to a
multiple of `nsPerSec`.  Header maps are association lists whose keys are
already in Go's canonical form (the source always reads and writes the same
constant names), so `http.Header.Get` is an exact-match lookup.
-/

namespace GoReddit

def nsPerSec : Int := 1000000000

/-- Go `time.Time.Truncate(time.Second)`: round down to a whole second
(a multiple of `nsPerSec` since the zero time). -/
def truncSec (t : Int) : Int := t - t % nsPerSec

def headerRateLimitRemaining : String := "x-ratelimit-remaining"

def headerRateLimitUsed : String := "x-ratelimit-used"

def headerRateLimitReset : String := "x-ratelimit-reset"

def headerContentType : String := "Content-Type"

def headerAccept : String := "Accept"

def mediaTypeJSON : String := "application/json"

def mediaTypeForm : String := "application/x-www-form-urlencoded"

/-- Go `http.Header.Get`: the value of the first pair with this key, `""` when
the header is absent. -/
def headerGet (hs : List (String × String)) (key : String) : String :=
  match hs.find? (fun p => p.fst == key) with
  | some p => p.snd
  | none => ""

/-- Models the `strconv` parses used by `parseRate` (`ParseFloat`, `Atoi`,
`ParseInt`), whose error results the source discards, leaving the zero value:
a nonempty all-digit string parses to its decimal value, anything else yields
0.  (The rate headers carry nonnegative decimal integers; fractional or signed
forms are outside the modelled scope.) -/
def parseDecimal (s : String) : Int :=
  if !s.data.isEmpty && s.data.all Char.isDigit then
    Int.ofNat (s.data.foldl (fun a c => 10 * a + (c.toNat - 48)) 0)
  else 0

/-- `Rate` from reddit.go: remaining/used request counts and the reset time
(0 = Go's zero `time.Time`). -/
structure Rate where
  remaining : Int
  used : Int
  reset : Int
  deriving Repr, DecidableEq

/-- Go `url.URL`, restricted to the parts the client uses. -/
structure GoURL where
  scheme : String
  host : String
  path : String
  deriving Repr, DecidableEq

def urlString (u : GoURL) : String := u.scheme ++ "://" ++ u.host ++ u.path

/-- `url.Parse("https://oauth.reddit.com")`: empty path. -/
def defaultBaseURL : GoURL := ⟨"https", "oauth.reddit.com", ""⟩

/-- `url.Parse("https://reddit.com")`: empty path. -/
def defaultBaseURLReadonly : GoURL := ⟨"https", "reddit.com", ""⟩

def defaultTokenURL : GoURL := ⟨"https", "www.reddit.com", "/api/v1/access_token"⟩

/-- `Credentials` from reddit.go. -/
structure Credentials where
  id : String
  secret : String
  username : String
  password : String
  deriving Repr, DecidableEq

/-- The mutable state of `Client` that the request pipeline can see: the
embedded credentials, the two base URLs, the cached user agent, the reddit id,
whether a completion callback is installed, and the mutex-guarded `rate`.
The service handles (`Account`, `Captcha`, ...) are pointers assigned once in
`newClient` and never written afterwards; they are summarized by
`serviceTag` (an opaque stand-in that `Do` never touches). -/
structure ClientState where
  credentials : Credentials
  baseURL : GoURL
  tokenURL : GoURL
  userAgent : String
  redditID : String
  hasCallback : Bool
  serviceTag : Nat
  rate : Rate
  deriving Repr, DecidableEq

/-- Go `http.Request`, restricted to what the pipeline reads. -/
structure GoRequest where
  method : String
  url : GoURL
  headers : List (String × String)
  formBody : Option (List UInt8)
  deriving Repr, DecidableEq

/-- Go `http.Response` as the pipeline consumes it.  `body` is the byte
stream's content; `bodyErr = some m` means that after `body` is exhausted the
stream yields the error `m` instead of a clean EOF (`ioutil.ReadAll` then
fails with `m`). -/
structure GoResponse where
  statusCode : Nat
  headers : List (String × String)
  body : List UInt8
  bodyErr : Option String
  contentLength : Int
  deriving Repr, DecidableEq

/-- The status/method/URL context a `ResponseError` carries through its
`Response` field (`nil` Response = `none`). -/
structure RespInfo where
  status : Nat
  method : String
  url : String
  deriving Repr, DecidableEq

/-- The error types of reddit-errors.go.  Message strings that embed a
formatted `time.Time` are elided; the structured payloads (raw data bytes,
rate snapshot, response context) are kept. -/
inductive GoError where
  | internalError (message : String)
  | jsonError (message : String) (data : List UInt8)
  | responseError (message : String) (response : Option RespInfo)
  | rateLimitError (rate : Rate) (response : Option RespInfo)
  deriving Repr, DecidableEq

/-- The body of `parseRate` once the three header strings have been read: a
present (nonempty) `remaining`/`used` header overwrites the zero value with
its parsed value, and a present, nonzero `reset` header stores `now` truncated
to the second plus that many seconds. -/
def parseRateVals (remaining used reset : String) (now : Int) : Rate :=
  let rate0 : Rate := ⟨0, 0, 0⟩
  let rate1 := if remaining ≠ "" then { rate0 with remaining := parseDecimal remaining } else rate0
  let rate2 := if used ≠ "" then { rate1 with used := parseDecimal used } else rate1
  if reset ≠ "" ∧ parseDecimal reset ≠ 0 then
    { rate2 with reset := truncSec now + parseDecimal reset * nsPerSec }
  else rate2

/-- `parseRate` from reddit.go: read the three rate headers and combine them
as above. -/
def parseRate (r : GoResponse) (now : Int) : Rate :=
  parseRateVals (headerGet r.headers headerRateLimitRemaining)
    (headerGet r.headers headerRateLimitUsed)
    (headerGet r.headers headerRateLimitReset) now

/-- `(*Client).checkRateLimitBeforeDo`: read the shared rate under the mutex;
if the reset time is set, the remaining budget is 0 and `now` is before the
reset, synthesize a `RateLimitError` around a fake 429 response whose
`Request` is `req`; otherwise allow the request. -/
def checkRateLimitBeforeDo (c : ClientState) (now : Int) (req : GoRequest) :
    Option GoError :=
  let rate := c.rate
  if rate.reset ≠ 0 ∧ rate.remaining = 0 ∧ now < rate.reset then
    some (.rateLimitError rate (some ⟨429, req.method, urlString req.url⟩))
  else
    none

/-- Result of `CheckResponse`: `ok` is a nil error; `panicNilError` marks the
branch that evaluates `err.Error()` while `err` is the nil interface, a
runtime nil-pointer panic. -/
inductive CheckOut where
  | ok
  | err (e : GoError)
  | panicNilError
  deriving Repr, DecidableEq

/-- `CheckResponse` from reddit.go, transcribed as written: if the
`x-ratelimit-remaining` header reads "0", return a `RateLimitError` with the
parsed rate; otherwise read the whole body, and — the test is inverted in the
source — when the read SUCCEEDS (`err == nil`) build a `JSONError` whose
message calls `err.Error()` on the nil `err`, which panics; when the read
fails, return nil for status 200 and otherwise a `ResponseError` (whose
message is the read error) carrying the response. -/
def CheckResponse (req : GoRequest) (r : GoResponse) (now : Int) : CheckOut :=
  if headerGet r.headers headerRateLimitRemaining = "0" then
    .err (.rateLimitError (parseRate r now)
      (some ⟨r.statusCode, req.method, urlString req.url⟩))
  else
    match r.bodyErr with
    | none => .panicNilError
    | some m =>
      if r.statusCode = 200 then .ok
      else .err (.responseError m (some ⟨r.statusCode, req.method, urlString req.url⟩))

/-- The destination argument `v` of `Do`: nil, an `io.Writer`, or a typed
value to JSON-decode into. -/
inductive VDest where
  | nilDest
  | writer
  | typed
  deriving Repr, DecidableEq

/-- Overall outcome of a call to `Do`. -/
inductive DoOutcome where
  | ok
  | err (e : GoError)
  | panicNilError
  | panicNegativeMake
  deriving Repr, DecidableEq

/-- What a call to `Do` produced: its outcome, how many times the transport
was invoked, and the client state afterwards. -/
structure DoOut where
  outcome : DoOutcome
  transportCalls : Nat
  client : ClientState
  deriving Repr, DecidableEq

/-- `(*Client).Do`, transcribed step by step.  `transport` is the result of
`DoRequestWithClient` when it is reached (`Except.error` = network failure,
wrapped in a `ResponseError` with a nil `Response`).  Steps: rate gate;
transport; store `parseRate resp now` into the shared rate under the mutex;
`CheckResponse`; then the `v` handling.  By the time the `v` handling runs,
`CheckResponse` returned nil, which in this source requires the body read to
have FAILED (`bodyErr = some m`) with status 200; the body bytes were consumed
by `CheckResponse`'s `ReadAll`, so the `io.Copy` into a writer fails with `m`
(wrapped in an `InternalError`), and a JSON decode fails with `m`, after which
the source allocates `make([]byte, ContentLength)` (panicking if it is
negative) and re-reads the body, getting `m` again, so it returns a
`JSONError` whose data is the zero-filled buffer. -/
def Do (c : ClientState) (now : Int) (req : GoRequest)
    (transport : Except String GoResponse) (v : VDest) : DoOut :=
  match checkRateLimitBeforeDo c now req with
  | some e => ⟨.err e, 0, c⟩
  | none =>
    match transport with
    | .error m => ⟨.err (.responseError m none), 1, c⟩
    | .ok resp =>
      let rate := parseRate resp now
      let c1 := { c with rate := rate }
      match CheckResponse req resp now with
      | .panicNilError => ⟨.panicNilError, 1, c1⟩
      | .err e => ⟨.err e, 1, c1⟩
      | .ok =>
        match v with
        | .nilDest => ⟨.ok, 1, c1⟩
        | .writer =>
          match resp.bodyErr with
          | some m => ⟨.err (.internalError m), 1, c1⟩
          | none => ⟨.ok, 1, c1⟩
        | .typed =>
          match resp.bodyErr with
          | some m =>
            if resp.contentLength < 0 then ⟨.panicNegativeMake, 1, c1⟩
            else
              ⟨.err (.jsonError m (List.replicate resp.contentLength.toNat 0)), 1, c1⟩
          | none => ⟨.ok, 1, c1⟩

/-- Everything of `s` up to and including its last slash (`""` when it has
none): the `base` part RFC 3986 path merging keeps. -/
def upToLastSlash (s : String) : String :=
  ⟨(s.data.reverse.dropWhile (fun c => c ≠ '/')).reverse⟩

/-- RFC 3986 path merge as Go's `url.URL.ResolveReference` performs it: a base
with an authority and an empty path contributes a leading `/`; otherwise the
reference replaces the base path's last segment. -/
def mergePaths (basePath refPath : String) : String :=
  if basePath = "" then "/" ++ refPath else upToLastSlash basePath ++ refPath

/-- Whether a path is rooted (begins with a slash). -/
def isRooted (s : String) : Bool :=
  match s.data with
  | '/' :: _ => true
  | _ => false

/-- `c.BaseURL.Parse(path)` for the references the endpoint methods supply:
plain (possibly rooted) paths without a scheme or authority of their own, so
the resolved URL keeps the base's scheme and host.  (Absolute-URL references
are outside the modelled scope; no caller builds one.) -/
def resolveReference (base : GoURL) (refPath : String) : GoURL :=
  if isRooted refPath then { base with path := refPath }
  else { base with path := mergePaths base.path refPath }

/-- `(*Client).appendJSONExtensionToRequestURLPath`: when the request's host
is the read-only host, append a literal ".json" to the resolved path;
otherwise leave the request alone. -/
def appendJSONExtensionToRequestURLPath (req : GoRequest) : GoRequest :=
  if req.url.host ≠ defaultBaseURLReadonly.host then req
  else { req with url := { req.url with path := req.url.path ++ ".json" } }

/-- `(*Client).NewRequest`: resolve the relative path against the client's
base URL, attach the optional form body, append the ".json" extension when on
the read-only host, and add the form content-type and JSON accept headers. -/
def NewRequest (c : ClientState) (method : String) (path : String)
    (form : Option (List UInt8)) : GoRequest :=
  let u := resolveReference c.baseURL path
  let req : GoRequest := ⟨method, u, [], form⟩
  let req := appendJSONExtensionToRequestURLPath req
  { req with headers := [(headerContentType, mediaTypeForm), (headerAccept, mediaTypeJSON)] }

/-- `newClient` from reddit.go: OAuth base and token URLs, zero-valued
credentials, user agent, reddit id and rate, no callback, service handles
freshly assigned. -/
def newClient : ClientState :=
  { credentials := ⟨"", "", "", ""⟩
    baseURL := defaultBaseURL
    tokenURL := defaultTokenURL
    userAgent := ""
    redditID := ""
    hasCallback := false
    serviceTag := 0
    rate := ⟨0, 0, 0⟩ }

/-- `NewClient` (options elided — none of the claims concerns an `Opt`):
`newClient` with the supplied credentials copied in. -/
def NewClient (cred : Credentials) : ClientState :=
  { newClient with credentials := cred }

/-- `NewReadonlyClient` (options elided): `newClient` with the read-only base
URL. -/
def NewReadonlyClient : ClientState :=
  { newClient with baseURL := defaultBaseURLReadonly }

/-- `JSONError` as json.go's unmarshalers build it (message and offending
input, both as strings here since the decoder model works on strings). -/
structure JErr where
  message : String
  data : String
  deriving Repr, DecidableEq

/-- `(*JSONError).Error()` from reddit-errors.go. -/
def jerrString (e : JErr) : String :=
  "JSONError: " ++ e.message ++ "\n" ++ e.data

/-- `(*Listing).UnmarshalJSON` from json.go, transcribed as written: it calls
`json.Unmarshal(b, l)` on the very receiver whose pointer type implements
`json.Unmarshaler`.  `encoding/json.Unmarshal` first runs its syntax scanner
(abstracted by `scan`: `none` = valid, `some msg` = syntax error) and then,
because `*Listing` implements `json.Unmarshaler`, invokes
`(*Listing).UnmarshalJSON` on the same bytes — the method being defined.
`fuel` bounds the call depth; a `none` result means the computation did not
return within `fuel` nested calls (in Go, unbounded recursion until the stack
overflows).  A non-nil error from the inner call is wrapped in a `JSONError`
carrying the raw input. -/
def listingUnmarshalJSON (scan : String → Option String) :
    Nat → String → Option (Option JErr)
  | 0, _ => none
  | fuel + 1, b =>
    match scan b with
    | some msg => some (some ⟨"error during unmarshal: " ++ msg, b⟩)
    | none =>
      match listingUnmarshalJSON scan fuel b with
      | none => none
      | some none => some none
      | some (some e) => some (some ⟨"error during unmarshal: " ++ jerrString e, b⟩)

/-- `(*Comment).UnmarshalJSON` from json.go: textually the same shape as
`(*Listing).UnmarshalJSON` (as are the Link, Subreddit, Message, Account,
Award and More methods), with the same self-recursion through
`json.Unmarshal(b, c)`. -/
def commentUnmarshalJSON (scan : String → Option String) :
    Nat → String → Option (Option JErr)
  | 0, _ => none
  | fuel + 1, b =>
    match scan b with
    | some msg => some (some ⟨"error during unmarshal: " ++ msg, b⟩)
    | none =>
      match commentUnmarshalJSON scan fuel b with
      | none => none
      | some none => some none
      | some (some e) => some (some ⟨"error during unmarshal: " ++ jerrString e, b⟩)

/-- How `json.NewDecoder(resp.Body).Decode(v)` ends: success, or failure with
a message, in both cases having consumed `consumed` bytes from the body
stream (the decoder reads from the stream in buffered chunks, so on failure it
has typically consumed everything it could read, not just the malformed
prefix). -/
inductive DecodeResult where
  | success (consumed : Nat)
  | failure (message : String) (consumed : Nat)
  deriving Repr, DecidableEq

/-- Outcome of the `v`-handling step of `Do`. -/
inductive StepOut where
  | proceed
  | copied (bytes : List UInt8)
  | decoded
  | jsonError (message : String) (data : List UInt8)
  | panicNilError
  | panicNegativeMake
  deriving Repr, DecidableEq

/-- The `v`-handling step of `Do` (the `if v != nil` block), on a readable
body stream whose unread content is `body`: nil destination — nothing;
`io.Writer` destination — `io.Copy` writes the body verbatim; typed
destination — JSON-decode, and on failure allocate `make([]byte,
resp.ContentLength)` (panicking when it is negative) and issue one
`resp.Body.Read` into it.  That read yields only the bytes the decoder left
unconsumed: when it returns no bytes it fails with EOF and the source returns
a `JSONError` whose message is that read error (the decode error is
overwritten) and whose data is the zero-filled buffer; when it does return
bytes its error is nil, and the source then evaluates `err.Error()` on the
nil `err` — a nil-pointer panic. -/
def doBodyStep (v : VDest) (body : List UInt8) (contentLength : Int)
    (dec : DecodeResult) : StepOut :=
  match v with
  | .nilDest => .proceed
  | .writer => .copied body
  | .typed =>
    match dec with
    | .success _ => .decoded
    | .failure _ consumed =>
      if contentLength < 0 then .panicNegativeMake
      else
        let n := contentLength.toNat
        let leftover := (body.drop consumed).take n
        if leftover.isEmpty ∧ 0 < n then
          .jsonError "EOF" (List.replicate n 0)
        else
          .panicNilError

/-- A representative request (GET against the OAuth host), used as concrete
input by several witnesses. -/
def reqFoo : GoRequest := ⟨"GET", ⟨"https", "oauth.reddit.com", "/foo"⟩, [], none⟩

/-- A 404 response with a readable four-byte body ("oops") and no rate
headers. -/
def resp404 : GoResponse := ⟨404, [], [111, 111, 112, 115], none, 4⟩

/-- A 200 response carrying `x-ratelimit-remaining: 0`, `x-ratelimit-used:
60`, `x-ratelimit-reset: 120`. -/
def resp200Rate : GoResponse :=
  ⟨200, [(headerRateLimitRemaining, "0"), (headerRateLimitUsed, "60"),
    (headerRateLimitReset, "120")], [], none, 0⟩

/-- The JSON text of a comment entity header: kind "t1". -/
def t1Payload : String := "\x7b\"kind\": \"t1\", \"data\": \x7b\x7d\x7d"

/-- The smallest syntactically valid JSON object. -/
def emptyObjPayload : String := "\x7b\x7d"

/-- The bytes of the malformed JSON text "bad" preceded by an opening brace. -/
def c7Body : List UInt8 := [123, 98, 97, 100]

/-! ### Helper lemmas -/

theorem resolveReference_host (base : GoURL) (p : String) :
    (resolveReference base p).host = base.host := by
  unfold resolveReference
  split <;> rfl

theorem gate_some_of_blocked (c : ClientState) (now : Int) (req : GoRequest)
    (h1 : c.rate.reset ≠ 0) (h2 : c.rate.remaining = 0) (h3 : now < c.rate.reset) :
    checkRateLimitBeforeDo c now req =
      some (.rateLimitError c.rate (some ⟨429, req.method, urlString req.url⟩)) := by
  simp [checkRateLimitBeforeDo, h1, h2, h3]

theorem gate_none_of_open (c : ClientState) (now : Int) (req : GoRequest)
    (h : 0 < c.rate.remaining ∨ c.rate.reset ≤ now) :
    checkRateLimitBeforeDo c now req = none := by
  simp only [checkRateLimitBeforeDo]
  rw [if_neg]
  rintro ⟨_, h2, h3⟩
  rcases h with h | h
  · rw [h2] at h
    exact absurd h (lt_irrefl 0)
  · exact absurd h3 (not_lt.mpr h)

theorem do_of_gate_some (c : ClientState) (now : Int) (req : GoRequest)
    (transport : Except String GoResponse) (v : VDest) (e : GoError)
    (h : checkRateLimitBeforeDo c now req = some e) :
    Do c now req transport v = ⟨.err e, 0, c⟩ := by
  unfold Do
  rw [h]

theorem do_calls_of_gate_none (c : ClientState) (now : Int) (req : GoRequest)
    (transport : Except String GoResponse) (v : VDest)
    (h : checkRateLimitBeforeDo c now req = none) :
    (Do c now req transport v).transportCalls = 1 := by
  unfold Do
  rw [h]
  cases transport with
  | error m => rfl
  | ok resp =>
    dsimp only
    cases CheckResponse req resp now with
    | panicNilError => rfl
    | err e => rfl
    | ok =>
      cases v with
      | nilDest => rfl
      | writer => cases resp.bodyErr <;> rfl
      | typed =>
        cases resp.bodyErr with
        | none => rfl
        | some m =>
          dsimp only
          split <;> rfl

theorem do_client_of_gate_none (c : ClientState) (now : Int) (req : GoRequest)
    (resp : GoResponse) (v : VDest)
    (h : checkRateLimitBeforeDo c now req = none) :
    (Do c now req (.ok resp) v).client = { c with rate := parseRate resp now } := by
  unfold Do
  rw [h]
  dsimp only
  cases CheckResponse req resp now with
  | panicNilError => rfl
  | err e => rfl
  | ok =>
    cases v with
    | nilDest => rfl
    | writer => cases resp.bodyErr <;> rfl
    | typed =>
      cases resp.bodyErr with
      | none => rfl
      | some m =>
        dsimp only
        split <;> rfl

theorem do_outcome_of_check_err (c : ClientState) (now : Int) (req : GoRequest)
    (resp : GoResponse) (v : VDest) (e : GoError)
    (hgate : checkRateLimitBeforeDo c now req = none)
    (hcheck : CheckResponse req resp now = .err e) :
    (Do c now req (.ok resp) v).outcome = .err e := by
  unfold Do
  rw [hgate]
  dsimp only
  rw [hcheck]

/-! ### Claim theorems -/

/-- C1: a call to `Do` attempts a network call if and only if the stored rate
state does not block it: when the stored `Rate` has `Remaining = 0`, the
current time is before `Reset` and `Reset` is set, `Do` returns a rate-limit
error carrying that `Rate` snapshot without invoking the transport; when
`Remaining > 0` or the current time is at or past `Reset`, `Do` proceeds to
send the request (exactly one transport call). -/
theorem claim1_rate_gate_controls_transport (c : ClientState) (now : Int)
    (req : GoRequest) (transport : Except String GoResponse) (v : VDest) :
    (c.rate.reset ≠ 0 → c.rate.remaining = 0 → now < c.rate.reset →
      Do c now req transport v =
        ⟨.err (.rateLimitError c.rate (some ⟨429, req.method, urlString req.url⟩)), 0, c⟩) ∧
    ((0 < c.rate.remaining ∨ c.rate.reset ≤ now) →
      (Do c now req transport v).transportCalls = 1) := by
  constructor
  · intro h1 h2 h3
    exact do_of_gate_some c now req transport v _ (gate_some_of_blocked c now req h1 h2 h3)
  · intro h
    exact do_calls_of_gate_none c now req transport v (gate_none_of_open c now req h)

/-- C1 witness: with stored rate `⟨0, 3, 100s⟩` at time 5s the transport is
not invoked and the rate-limit error carries the snapshot; with remaining 3
the transport is invoked once. -/
theorem claim1_rate_gate_witness :
    Do { newClient with rate := ⟨0, 3, 100 * nsPerSec⟩ } (5 * nsPerSec) reqFoo
        (.error "boom") .nilDest =
      ⟨.err (.rateLimitError ⟨0, 3, 100 * nsPerSec⟩
        (some ⟨429, "GET", "https://oauth.reddit.com/foo"⟩)), 0,
        { newClient with rate := ⟨0, 3, 100 * nsPerSec⟩ }⟩ ∧
    (Do { newClient with rate := ⟨3, 0, 100 * nsPerSec⟩ } (5 * nsPerSec) reqFoo
        (.error "boom") .nilDest).transportCalls = 1 := by
  constructor
  · exact (claim1_rate_gate_controls_transport _ _ _ _ _).1 (by decide) rfl (by decide)
  · exact (claim1_rate_gate_controls_transport _ _ _ _ _).2 (Or.inl (by decide))

/-- C4: when the response's `x-ratelimit-remaining` header reads "0", `Do`
returns a rate-limit error carrying the parsed `Rate` snapshot regardless of
the HTTP status code (the status is carried through unchanged, not consulted). -/
theorem claim4_zero_remaining_header_is_rate_limit_error (c : ClientState)
    (now : Int) (req : GoRequest) (resp : GoResponse) (v : VDest)
    (hgate : checkRateLimitBeforeDo c now req = none)
    (h0 : headerGet resp.headers headerRateLimitRemaining = "0") :
    (Do c now req (.ok resp) v).outcome =
      .err (.rateLimitError (parseRate resp now)
        (some ⟨resp.statusCode, req.method, urlString req.url⟩)) := by
  apply do_outcome_of_check_err c now req resp v _ hgate
  unfold CheckResponse
  rw [if_pos h0]

/-- C4 witness: a 200-status response with `x-ratelimit-remaining: 0` makes
`Do` return a rate-limit error. -/
theorem claim4_zero_remaining_header_witness :
    (Do newClient (5 * nsPerSec) reqFoo (.ok resp200Rate) .nilDest).outcome =
      .err (.rateLimitError ⟨0, 60, 5 * nsPerSec + 120 * nsPerSec⟩
        (some ⟨200, "GET", "https://oauth.reddit.com/foo"⟩)) := by
  have h := claim4_zero_remaining_header_is_rate_limit_error newClient (5 * nsPerSec)
    reqFoo resp200Rate .nilDest rfl rfl
  rw [h]
  rfl

/-- C5: a response carrying `x-ratelimit-remaining: 0`, `x-ratelimit-used:
60`, `x-ratelimit-reset: 120` parses to remaining 0, used 60 and reset = now
truncated to the second plus 120 seconds, and that `Rate` is written to the
client's shared rate state after the response. -/
theorem claim5_rate_headers_parsed_and_stored (c : ClientState) (now : Int)
    (req : GoRequest) (resp : GoResponse) (v : VDest)
    (hgate : checkRateLimitBeforeDo c now req = none)
    (h1 : headerGet resp.headers headerRateLimitRemaining = "0")
    (h2 : headerGet resp.headers headerRateLimitUsed = "60")
    (h3 : headerGet resp.headers headerRateLimitReset = "120") :
    parseRate resp now = ⟨0, 60, truncSec now + 120 * nsPerSec⟩ ∧
    (Do c now req (.ok resp) v).client.rate =
      ⟨0, 60, truncSec now + 120 * nsPerSec⟩ := by
  have hp : parseRate resp now = ⟨0, 60, truncSec now + 120 * nsPerSec⟩ := by
    unfold parseRate
    rw [h1, h2, h3]
    rfl
  refine ⟨hp, ?_⟩
  rw [do_client_of_gate_none c now req resp v hgate]
  exact hp

/-- C5 witness: at time 5s the parsed reset is 125s (5s truncated plus 120s)
and it is stored in the client. -/
theorem claim5_rate_headers_witness :
    parseRate resp200Rate (5 * nsPerSec) = ⟨0, 60, 125 * nsPerSec⟩ ∧
    (Do newClient (5 * nsPerSec) reqFoo (.ok resp200Rate) .nilDest).client.rate =
      ⟨0, 60, 125 * nsPerSec⟩ := by
  have h := claim5_rate_headers_parsed_and_stored newClient (5 * nsPerSec) reqFoo
    resp200Rate .nilDest rfl rfl rfl rfl
  have e : truncSec (5 * nsPerSec) + 120 * nsPerSec = 125 * nsPerSec := by decide
  constructor
  · rw [h.1, e]
  · rw [h.2, e]

/-- C8: a call to `Do` modifies no client state other than the shared `Rate`
record: every other field (credentials, base URLs, user agent, reddit id,
callback, service handles) is unchanged, and the rate itself is either
untouched (gate block or transport failure) or overwritten with the parsed
rate of the response. -/
theorem claim8_do_writes_only_rate (c : ClientState) (now : Int)
    (req : GoRequest) (transport : Except String GoResponse) (v : VDest) :
    (Do c now req transport v).client.credentials = c.credentials ∧
    (Do c now req transport v).client.baseURL = c.baseURL ∧
    (Do c now req transport v).client.tokenURL = c.tokenURL ∧
    (Do c now req transport v).client.userAgent = c.userAgent ∧
    (Do c now req transport v).client.redditID = c.redditID ∧
    (Do c now req transport v).client.hasCallback = c.hasCallback ∧
    (Do c now req transport v).client.serviceTag = c.serviceTag ∧
    ((Do c now req transport v).client.rate = c.rate ∨
      ∃ resp, transport = .ok resp ∧
        (Do c now req transport v).client.rate = parseRate resp now) := by
  have hcl : (Do c now req transport v).client = c ∨
      ∃ resp, transport = .ok resp ∧
        (Do c now req transport v).client = { c with rate := parseRate resp now } := by
    cases hg : checkRateLimitBeforeDo c now req with
    | some e =>
      left
      rw [do_of_gate_some c now req transport v e hg]
    | none =>
      cases transport with
      | error m =>
        left
        unfold Do
        rw [hg]
      | ok resp =>
        right
        exact ⟨resp, rfl, do_client_of_gate_none c now req resp v hg⟩

  rcases hcl with hcl | ⟨resp, ht, hcl⟩ <;> rw [hcl] <;>
    exact ⟨rfl, rfl, rfl, rfl, rfl, rfl, rfl, by first | exact Or.inl rfl | exact Or.inr ⟨resp, ht, rfl⟩⟩

/-- C10: a freshly constructed client has the zero `Rate`, and with the zero
rate the gate never blocks at any time (blocking additionally requires a
nonzero reset timestamp), so the first request always goes through to the
transport. -/
theorem claim10_fresh_client_gate_never_blocks (cred : Credentials) (now : Int)
    (req : GoRequest) (transport : Except String GoResponse) (v : VDest) :
    (NewClient cred).rate = ⟨0, 0, 0⟩ ∧
    checkRateLimitBeforeDo (NewClient cred) now req = none ∧
    (Do (NewClient cred) now req transport v).transportCalls = 1 ∧
    (∀ c : ClientState, c.rate.reset = 0 → checkRateLimitBeforeDo c now req = none) := by
  have hz : ∀ c : ClientState, c.rate.reset = 0 →
      checkRateLimitBeforeDo c now req = none := by
    intro c h
    simp only [checkRateLimitBeforeDo]
    rw [if_neg]
    rintro ⟨h1, _, _⟩
    exact h1 h
  refine ⟨rfl, hz _ rfl, ?_, hz⟩
  exact do_calls_of_gate_none _ now req transport v (hz _ rfl)

/-- C10 witness: the fresh client's first request at time 5s invokes the
transport once. -/
theorem claim10_fresh_client_witness :
    (Do (NewClient ⟨"", "", "", ""⟩) (5 * nsPerSec) reqFoo (.error "boom")
      .nilDest).transportCalls = 1 :=
  (claim10_fresh_client_gate_never_blocks ⟨"", "", "", ""⟩ (5 * nsPerSec) reqFoo
    (.error "boom") .nilDest).2.2.1

theorem appendJSON_path (req : GoRequest) :
    (appendJSONExtensionToRequestURLPath req).url.path =
      if req.url.host = defaultBaseURLReadonly.host then req.url.path ++ ".json"
      else req.url.path := by
  unfold appendJSONExtensionToRequestURLPath
  by_cases h : req.url.host = defaultBaseURLReadonly.host
  · rw [if_neg (fun hne => hne h), if_pos h]
  · rw [if_pos h, if_neg h]

/-- C6: a request built from a relative path against the read-only base host
has ".json" appended to its resolved URL path, and a request built against
the authenticated OAuth base host does not; in particular `r/foo/about`
resolves to `/r/foo/about.json` on the read-only host and to `/r/foo/about`
on the OAuth host. -/
theorem claim6_readonly_host_gets_json_suffix (m p : String)
    (form : Option (List UInt8)) :
    (NewRequest NewReadonlyClient m p form).url.path =
      (resolveReference defaultBaseURLReadonly p).path ++ ".json" ∧
    (∀ cred, (NewRequest (NewClient cred) m p form).url.path =
      (resolveReference defaultBaseURL p).path) ∧
    (NewRequest NewReadonlyClient "GET" "r/foo/about" none).url.path =
      "/r/foo/about.json" ∧
    (∀ cred, (NewRequest (NewClient cred) "GET" "r/foo/about" none).url.path =
      "/r/foo/about") := by
  refine ⟨?_, ?_, rfl, fun cred => rfl⟩
  · rw [show (NewRequest NewReadonlyClient m p form).url =
      (appendJSONExtensionToRequestURLPath
        ⟨m, resolveReference defaultBaseURLReadonly p, [], form⟩).url from rfl]
    rw [appendJSON_path]
    exact if_pos (resolveReference_host defaultBaseURLReadonly p)
  · intro cred
    rw [show (NewRequest (NewClient cred) m p form).url =
      (appendJSONExtensionToRequestURLPath
        ⟨m, resolveReference defaultBaseURL p, [], form⟩).url from rfl]
    rw [appendJSON_path]
    apply if_neg
    intro h
    rw [resolveReference_host] at h
    exact absurd h (by decide)

/-- C3 (code bug): on a response whose `x-ratelimit-remaining` header does not
read "0" and whose status is 404, with a readable body, `CheckResponse` — and
hence `Do` — does not produce the generic response error the spec requires:
the inverted `err == nil` test sends it into the branch that calls
`err.Error()` on a nil error, a runtime panic. -/
theorem claim3_inverted_body_check_panics_not_response_error :
    headerGet resp404.headers headerRateLimitRemaining ≠ "0" ∧
    resp404.statusCode ≠ 200 ∧
    CheckResponse reqFoo resp404 0 = .panicNilError ∧
    (Do newClient 0 reqFoo (.ok resp404) .nilDest).outcome = .panicNilError ∧
    ∀ msg info, CheckResponse reqFoo resp404 0 ≠ .err (.responseError msg info) :=
  ⟨by decide, by decide, rfl, rfl, fun msg info h => CheckOut.noConfusion h⟩

/-- C7 (code bug): in the decode branch of `Do`, a destination that is a raw
byte sink receives the body verbatim, but on a JSON decode failure the error
returned does NOT carry the raw bytes that failed to parse: with the 4-byte
body "(brace)bad" fully consumed by the failed decode, the returned
`JSONError` carries a zero-filled 4-byte buffer and the message "EOF" (the
decode error is overwritten by the re-read's error), and when the decoder
leaves bytes unread the branch panics calling `Error()` on a nil error. -/
theorem claim7_decode_failure_drops_raw_bytes :
    doBodyStep .writer c7Body 4 (.failure "invalid character" 4) = .copied c7Body ∧
    doBodyStep .typed c7Body 4 (.failure "invalid character" 4) =
      .jsonError "EOF" [0, 0, 0, 0] ∧
    ([0, 0, 0, 0] : List UInt8) ≠ c7Body ∧
    doBodyStep .typed c7Body 4 (.failure "invalid character" 2) = .panicNilError :=
  ⟨rfl, rfl, by decide, rfl⟩

/-- C9 (code bug): `(*Listing).UnmarshalJSON` does not terminate on
syntactically valid input: because `json.Unmarshal(b, l)` re-invokes the
receiver's own `UnmarshalJSON`, the recursion never returns within any
bounded call depth (in Go, it recurses until the stack overflows). -/
theorem claim9_unmarshal_never_returns_on_valid_json
    (scan : String → Option String) (b : String) (hvalid : scan b = none) :
    ∀ fuel, listingUnmarshalJSON scan fuel b = none := by
  intro fuel
  induction fuel with
  | zero => rfl
  | succ n ih =>
    unfold listingUnmarshalJSON
    rw [hvalid]
    rw [ih]

/-- C9 witness: on the valid JSON object text "(brace)(brace-close)" the
method returns nothing within 3 nested calls. -/
theorem claim9_unmarshal_witness :
    listingUnmarshalJSON (fun _ => none) 3 emptyObjPayload = none :=
  claim9_unmarshal_never_returns_on_valid_json (fun _ => none) emptyObjPayload rfl 3

/-- C2 (code bug): a payload whose kind field is "t1" is never decoded into a
Comment variant, and no unknown-kind decode error is ever produced: there is
no kind dispatch in the source, and `(*Comment).UnmarshalJSON` on the (valid)
t1 payload recurses through `json.Unmarshal` without ever returning. -/
theorem claim2_t1_payload_never_decodes (scan : String → Option String)
    (hvalid : scan t1Payload = none) :
    ∀ fuel, commentUnmarshalJSON scan fuel t1Payload = none := by
  intro fuel
  induction fuel with
  | zero => rfl
  | succ n ih =>
    unfold commentUnmarshalJSON
    rw [hvalid]
    rw [ih]

/-- C2 witness: on the valid t1 payload the method returns nothing within 3
nested calls. -/
theorem claim2_t1_payload_witness :
    commentUnmarshalJSON (fun _ => none) 3 t1Payload = none :=
  claim2_t1_payload_never_decodes (fun _ => none) rfl 3

end GoReddit
